import Mathlib

/-!
Shallow embedding of `src/storage_eval.py` (PyStorage-Eval): parameter
validation (`StorageProject._validate_and_init_params`), the cash-flow engine
(`StorageProject.calculate_cash_flow`) and the payback-period extraction
(`StorageProject.get_metrics`).  Monetary amounts are modelled as rationals;
Python `int` values as `Int`.  Python floats are modelled as exact rationals.
-/

namespace PyStorage

/-- Raw input mapping handed to `StorageProject.__init__`: every key the code
reads from `self.p`, each present or absent.  Numeric values are rationals,
`int(...)`-converted values are integers, string-valued keys are strings. -/
structure Input where
  power_mw : Option ℚ := none
  capacity_mwh : Option ℚ := none
  efficiency : Option ℚ := none
  static_invest : Option ℚ := none
  loan_rate : Option ℚ := none
  capital_ratio : Option ℚ := none
  battery_asset_ratio : Option ℚ := none
  revenue_mode : Option String := none
  cycles_per_year : Option ℤ := none
  charge_price : Option ℚ := none
  discharge_price : Option ℚ := none
  lease_capacity : Option ℚ := none
  lease_price : Option ℚ := none
  ancillary_type : Option String := none
  ancillary_revenue : Option ℚ := none
  battery_life : Option ℤ := none
  replacement_mode : Option String := none
  replacement_cost : Option ℚ := none
  deductible_tax : Option ℚ := none
deriving DecidableEq

/-- Validated parameter set: the attributes `_validate_and_init_params` leaves
on the object (plus the `deductible_tax` value that `calculate_cash_flow`
reads from `self.p` with its default). -/
structure Params where
  power_mw : ℚ
  capacity_mwh : ℚ
  efficiency : ℚ
  static_invest : ℚ
  loan_rate : ℚ
  capital_ratio : ℚ
  battery_asset_ratio : ℚ
  revenue_mode : String
  cycles_per_year : ℤ
  charge_price : ℚ
  discharge_price : ℚ
  lease_capacity : ℚ
  lease_price : ℚ
  ancillary_revenue : ℚ
  battery_life : ℤ
  replacement_mode : String
  replacement_cost : ℚ
  deductible_tax : ℚ
deriving DecidableEq

/-- Validation errors raised by `_validate_and_init_params`
(`InputValidationError` messages, one constructor per distinct `raise`). -/
inductive VError where
  | missingKeys (ks : List String)
  | powerNonpositive
  | capacityNonpositive
  | efficiencyOutOfRange
  | investNonpositive
  | capitalRatioOutOfRange
  | batteryAssetRatioOutOfRange
  | capacityModeMissing
  | ancillaryModeMissing
deriving DecidableEq

/-- The parameter fields named by a validation error message
(`missing_keys` list for the aggregated error; each range error message
names the single field it checks; each mode error names the two keys its
static message lists). -/
def VError.fields : VError → List String
  | .missingKeys ks => ks
  | .powerNonpositive => ["power_mw"]
  | .capacityNonpositive => ["capacity_mwh"]
  | .efficiencyOutOfRange => ["efficiency"]
  | .investNonpositive => ["static_invest"]
  | .capitalRatioOutOfRange => ["capital_ratio"]
  | .batteryAssetRatioOutOfRange => ["battery_asset_ratio"]
  | .capacityModeMissing => ["lease_capacity", "lease_price"]
  | .ancillaryModeMissing => ["ancillary_type", "ancillary_revenue"]

/-- `missing_keys = [k for k in required_keys if k not in self.p]` with
`required_keys = ['power_mw', 'capacity_mwh', 'static_invest']`. -/
def requiredMissing (i : Input) : List String :=
  (if i.power_mw.isSome then [] else ["power_mw"])
    ++ (if i.capacity_mwh.isSome then [] else ["capacity_mwh"])
    ++ (if i.static_invest.isSome then [] else ["static_invest"])

/-- The parameter set built on the success path of
`_validate_and_init_params` (all the `self.xxx = float(self.p.get(...))`
reads with the source's defaults), together with the `deductible_tax`
default applied by `calculate_cash_flow`. -/
def mkParams (i : Input) : Params :=
  let mode := i.revenue_mode.getD "arbitrage"
  let static := i.static_invest.getD 0
  { power_mw := i.power_mw.getD 0
    capacity_mwh := i.capacity_mwh.getD 0
    efficiency := i.efficiency.getD (85/100)
    static_invest := static
    loan_rate := i.loan_rate.getD (49/1000)
    capital_ratio := i.capital_ratio.getD (2/10)
    battery_asset_ratio := i.battery_asset_ratio.getD (6/10)
    revenue_mode := mode
    cycles_per_year := i.cycles_per_year.getD 330
    charge_price := i.charge_price.getD (3/10)
    discharge_price := i.discharge_price.getD (9/10)
    lease_capacity := i.lease_capacity.getD 0
    lease_price := i.lease_price.getD 0
    ancillary_revenue := i.ancillary_revenue.getD 0
    battery_life :=
      match i.battery_life with
      | some bl => bl
      | none =>
          if mode = "ancillary" ∧ i.ancillary_type.getD "peaking" = "frequency"
          then 4 else 10
    replacement_mode := i.replacement_mode.getD "expense"
    replacement_cost := i.replacement_cost.getD (static * (7/10))
    deductible_tax := i.deductible_tax.getD (static / (1 + 13/100) * (13/100)) }

/-- `_validate_and_init_params`: aggregated missing-key error first, then the
numeric range checks in source order (each one its own `raise`), then the
mode-specific required-key checks, then the normalized parameter set. -/
def validate (i : Input) : Except VError Params :=
  if requiredMissing i ≠ [] then .error (.missingKeys (requiredMissing i))
  else if i.power_mw.getD 0 ≤ 0 then .error .powerNonpositive
  else if i.capacity_mwh.getD 0 ≤ 0 then .error .capacityNonpositive
  else if ¬(0 < i.efficiency.getD (85/100) ∧ i.efficiency.getD (85/100) ≤ 1) then
    .error .efficiencyOutOfRange
  else if i.static_invest.getD 0 ≤ 0 then .error .investNonpositive
  else if ¬(0 < i.capital_ratio.getD (2/10) ∧ i.capital_ratio.getD (2/10) ≤ 1) then
    .error .capitalRatioOutOfRange
  else if ¬(0 < i.battery_asset_ratio.getD (6/10) ∧ i.battery_asset_ratio.getD (6/10) ≤ 1) then
    .error .batteryAssetRatioOutOfRange
  else if i.revenue_mode.getD "arbitrage" = "capacity"
      ∧ (i.lease_capacity.isNone ∨ i.lease_price.isNone) then
    .error .capacityModeMissing
  else if i.revenue_mode.getD "arbitrage" = "ancillary"
      ∧ (i.ancillary_type.isNone ∨ i.ancillary_revenue.isNone) then
    .error .ancillaryModeMissing
  else .ok (mkParams i)

/-- The battery-life value construction ends up with, `none` when
construction fails with a validation error. -/
def constructedBatteryLife (i : Input) : Option ℤ :=
  match validate i with
  | .ok q => some q.battery_life
  | .error _ => none

/-- The spec's ParameterSet invariants (spec section 3): power>0, capacity>0,
0<efficiency≤1, static investment>0, 0<capital ratio≤1, 0<battery asset
share≤1, battery life ≥ 1. -/
def ValidParams (p : Params) : Prop :=
  0 < p.power_mw ∧ 0 < p.capacity_mwh ∧ 0 < p.efficiency ∧ p.efficiency ≤ 1
    ∧ 0 < p.static_invest ∧ 0 < p.capital_ratio ∧ p.capital_ratio ≤ 1
    ∧ 0 < p.battery_asset_ratio ∧ p.battery_asset_ratio ≤ 1
    ∧ 1 ≤ p.battery_life

instance : DecidablePred ValidParams := fun p => by
  unfold ValidParams; infer_instance

/-! ## Cash-flow engine (`calculate_cash_flow`) -/

/-- `_calc_construction_interest`: `(loan_principal / 2) * loan_rate` with
`loan_principal = static_invest * (1 - capital_ratio)`. -/
def constInterest (p : Params) : ℚ :=
  p.static_invest * (1 - p.capital_ratio) / 2 * p.loan_rate

/-- `working_capital = static_invest * 0.01`. -/
def workingCapital (p : Params) : ℚ := p.static_invest * (1/100)

/-- `fixed_asset_value = static_invest + const_interest - deductible_tax`. -/
def fixedAssetValue (p : Params) : ℚ :=
  p.static_invest + constInterest p - p.deductible_tax

/-- `battery_asset_value = fixed_asset_value * battery_asset_ratio`. -/
def batteryAssetValue (p : Params) : ℚ :=
  fixedAssetValue p * p.battery_asset_ratio

/-- `non_battery_asset_value = fixed_asset_value * (1 - battery_asset_ratio)`. -/
def nonBatteryAssetValue (p : Params) : ℚ :=
  fixedAssetValue p * (1 - p.battery_asset_ratio)

/-- `battery_depreciation_per_year = battery_asset_value * 0.95 / battery_life`. -/
def batteryDepPerYear (p : Params) : ℚ :=
  batteryAssetValue p * (95/100) / (p.battery_life : ℚ)

/-- `non_battery_depreciation_per_year = non_battery_asset_value * 0.95 / 15`. -/
def nonBatteryDepPerYear (p : Params) : ℚ :=
  nonBatteryAssetValue p * (95/100) / 15

/-- Battery-schedule depreciation charged in operating year `op_year`
(`battery_depreciation_per_year if op_year <= battery_life else 0`). -/
def batteryDepAt (p : Params) (op_year : ℕ) : ℚ :=
  if (op_year : ℤ) ≤ p.battery_life then batteryDepPerYear p else 0

/-- Non-battery-schedule depreciation charged in operating year `op_year`
(`non_battery_depreciation_per_year if op_year <= 15 else 0`). -/
def nonBatteryDepAt (p : Params) (op_year : ℕ) : ℚ :=
  if op_year ≤ 15 then nonBatteryDepPerYear p else 0

/-- `_get_om_rate`: `max(om_by_power, om_by_energy)`.  The Python attribute
test `hasattr(self, 'cycles_per_year')` holds exactly when the revenue mode
is arbitrage or hybrid (the only validation branches that set it). -/
def omCost (p : Params) : ℚ :=
  max (p.power_mw * 1000 * 30 / 10000)
    ((if p.revenue_mode = "arbitrage" ∨ p.revenue_mode = "hybrid"
        then p.capacity_mwh * (p.cycles_per_year : ℚ)
        else p.capacity_mwh * 330) * 1000 * (5/100) / 10000)

/-- Charge cost of an operating year (arbitrage/hybrid branch; zero in the
other branches where the loop leaves the initial `0.0`). -/
def chargeCost (p : Params) : ℚ :=
  if p.revenue_mode = "arbitrage" ∨ p.revenue_mode = "hybrid" then
    (p.cycles_per_year : ℚ) * p.capacity_mwh * p.charge_price * 10000 / 10000
  else 0

/-- Discharge revenue of an operating year. -/
def dischargeRevenue (p : Params) : ℚ :=
  if p.revenue_mode = "arbitrage" ∨ p.revenue_mode = "hybrid" then
    (p.cycles_per_year : ℚ) * p.efficiency * p.capacity_mwh * p.discharge_price * 10000 / 10000
  else 0

/-- Lease revenue of an operating year (`lease_capacity * lease_price` in
capacity mode, else the initial `0.0`). -/
def leaseRevenue (p : Params) : ℚ :=
  if p.revenue_mode = "capacity" then p.lease_capacity * p.lease_price else 0

/-- Ancillary revenue of an operating year (set in the hybrid and ancillary
branches, else the initial `0.0`). -/
def ancillaryRevenue (p : Params) : ℚ :=
  if p.revenue_mode = "hybrid" ∨ p.revenue_mode = "ancillary" then
    p.ancillary_revenue
  else 0

/-- `rev_inc`: lease revenue in capacity mode, else discharge + ancillary. -/
def revenueInc (p : Params) : ℚ :=
  if p.revenue_mode = "capacity" then leaseRevenue p
  else dischargeRevenue p + ancillaryRevenue p

/-- `rev_exc`: `rev_inc / (1 + 0.06)` in capacity mode, else
`rev_inc / (1 + 0.13)`. -/
def revenueExc (p : Params) : ℚ :=
  if p.revenue_mode = "capacity" then revenueInc p / (1 + 6/100)
  else revenueInc p / (1 + 13/100)

/-- `output_vat = rev_inc - rev_exc`. -/
def outputVat (p : Params) : ℚ := revenueInc p - revenueExc p

/-- The VAT credit-pool update: given the pool carried into the year and the
year's output VAT, returns `(vat_pay, new_pool)` exactly as the
`current_deductible` branch in the loop body. -/
def vatStep (pool output_vat : ℚ) : ℚ × ℚ :=
  if 0 < pool then
    if output_vat ≤ pool then (0, pool - output_vat)
    else (output_vat - pool, 0)
  else (output_vat, pool)

/-- `tax_rate` by operating year (three-free-three-half policy). -/
def taxRate (op_year : ℕ) : ℚ :=
  if op_year ≤ 3 then 0
  else if op_year ≤ 6 then (25/100) * (1/2)
  else 25/100

/-- One row of the cash-flow DataFrame.  `profit` records the loop-local
`profit` variable feeding the income tax (the DataFrame's `Profit_Total`
column is initialized to 0.0 and never assigned). -/
structure YearRecord where
  Charge_Cost : ℚ
  Discharge_Revenue : ℚ
  Lease_Revenue : ℚ
  Ancillary_Revenue : ℚ
  Revenue_Inc : ℚ
  Revenue_Exc : ℚ
  Output_VAT : ℚ
  OM_Cost : ℚ
  VAT_Payable : ℚ
  Surtax : ℚ
  Battery_Replacement : ℚ
  Depreciation : ℚ
  profit : ℚ
  Income_Tax : ℚ
  Net_CF_Pre : ℚ
  Net_CF_After : ℚ
deriving DecidableEq

/-- Body of the operating-year loop (`for y in range(2, 22)` with
`op_year = y - 1`): builds the row for operating year `op_year` from the
credit pool carried in, returning the row and the pool carried out. -/
def opRecord (p : Params) (pool : ℚ) (op_year : ℕ) : YearRecord × ℚ :=
  let charge := chargeCost p
  let discharge := dischargeRevenue p
  let lease := leaseRevenue p
  let ancillary := ancillaryRevenue p
  let rev_inc := revenueInc p
  let rev_exc := revenueExc p
  let output_vat := outputVat p
  let om := omCost p
  let vp := vatStep pool output_vat
  let surtax := vp.1 * (10/100)
  let battery_replacement :=
    if (op_year : ℤ) % p.battery_life = 0 ∧ op_year < 20 then p.replacement_cost else 0
  let dep := batteryDepAt p op_year + nonBatteryDepAt p op_year
  let profit :=
    if p.replacement_mode = "expense" then
      rev_exc - charge - om - surtax - dep - battery_replacement
    else
      rev_exc - charge - om - surtax - dep
  let income_tax := max 0 (profit * taxRate op_year)
  let inflow :=
    (discharge + lease + ancillary)
      + (if op_year = 20 then p.static_invest * (5/100) + workingCapital p else 0)
  let outflow := charge + om + surtax + battery_replacement + income_tax
  ({ Charge_Cost := charge
     Discharge_Revenue := discharge
     Lease_Revenue := lease
     Ancillary_Revenue := ancillary
     Revenue_Inc := rev_inc
     Revenue_Exc := rev_exc
     Output_VAT := output_vat
     OM_Cost := om
     VAT_Payable := vp.1
     Surtax := surtax
     Battery_Replacement := battery_replacement
     Depreciation := dep
     profit := profit
     Income_Tax := income_tax
     Net_CF_Pre := inflow - (charge + om + surtax + battery_replacement)
     Net_CF_After := inflow - outflow }, vp.2)

/-- Credit pool entering operating year `n + 1` (equivalently: the pool after
`n` operating years); `poolBefore p 0` is the initial `deductible_tax`. -/
def poolBefore (p : Params) : ℕ → ℚ
  | 0 => p.deductible_tax
  | n + 1 => (opRecord p (poolBefore p n) (n + 1)).2

/-- Row of operating year `n` (for `1 ≤ n ≤ 20`). -/
def opRec (p : Params) (n : ℕ) : YearRecord :=
  (opRecord p (poolBefore p (n - 1)) n).1

/-- Year-1 (construction) row: all columns keep their initial `0.0` except
the two net cash flows, set to `-(static_invest + working_capital)`. -/
def constructionRecord (p : Params) : YearRecord :=
  { Charge_Cost := 0
    Discharge_Revenue := 0
    Lease_Revenue := 0
    Ancillary_Revenue := 0
    Revenue_Inc := 0
    Revenue_Exc := 0
    Output_VAT := 0
    OM_Cost := 0
    VAT_Payable := 0
    Surtax := 0
    Battery_Replacement := 0
    Depreciation := 0
    profit := 0
    Income_Tax := 0
    Net_CF_Pre := -(p.static_invest + workingCapital p)
    Net_CF_After := -(p.static_invest + workingCapital p) }

/-- Row of the table at pandas index `y` (1 = construction,
`2..21` = operating years `1..20`). -/
def yearRecord (p : Params) (y : ℕ) : YearRecord :=
  if y = 1 then constructionRecord p else opRec p (y - 1)

/-- The finished cash-flow table: rows at indices `1..21`. -/
def cashFlowTable (p : Params) : List YearRecord :=
  (List.range 21).map (fun i => yearRecord p (i + 1))

/-! ## Metrics extraction (`get_metrics`): payback period -/

/-- `np.cumsum`: list of partial sums. -/
def cumsum : List ℚ → List ℚ
  | [] => []
  | x :: xs => x :: (cumsum xs).map (fun c => x + c)

/-- Index of the first entry `≥ 0` (`np.where(cumsum >= 0)[0]`, first
element), `none` when every entry is negative. -/
def firstNonneg : List ℚ → Option ℕ
  | [] => none
  | c :: cs => if 0 ≤ c then some 0 else (firstNonneg cs).map (· + 1)

/-- Payback-period extraction from the after-tax cash-flow series:
`p_idx - 1 + abs(cumsum[p_idx - 1]) / cf_after[p_idx]` at the first index
with non-negative cumulative sum (`1.0` when that index is 0), and the
sentinel `99.9` when the cumulative sum never turns non-negative. -/
def payback (cf : List ℚ) : ℚ :=
  match firstNonneg (cumsum cf) with
  | some p =>
      if 0 < p then (p : ℚ) - 1 + |(cumsum cf).getD (p - 1) 0| / cf.getD p 0
      else 1
  | none => 999/10

/-! ## Spec-side definitions and concrete inputs -/

/-- Modelled from the spec's words (for the refinement comparison in claim
C8): the "full list of offending fields" of an input — every missing
required key together with every out-of-range numeric field among the
range-checked common numerics. -/
def offendingFieldsSpec (i : Input) : List String :=
  requiredMissing i
    ++ (if i.power_mw.getD 0 ≤ 0 then ["power_mw"] else [])
    ++ (if i.capacity_mwh.getD 0 ≤ 0 then ["capacity_mwh"] else [])
    ++ (if ¬(0 < i.efficiency.getD (85/100) ∧ i.efficiency.getD (85/100) ≤ 1) then
          ["efficiency"] else [])
    ++ (if i.static_invest.getD 0 ≤ 0 then ["static_invest"] else [])
    ++ (if ¬(0 < i.capital_ratio.getD (2/10) ∧ i.capital_ratio.getD (2/10) ≤ 1) then
          ["capital_ratio"] else [])
    ++ (if ¬(0 < i.battery_asset_ratio.getD (6/10) ∧ i.battery_asset_ratio.getD (6/10) ≤ 1) then
          ["battery_asset_ratio"] else [])

/-- The common numeric fields of an input are present (the required ones) and
in range: exactly the conditions of the source's numeric range checks. -/
def CommonInRange (i : Input) : Prop :=
  i.power_mw.isSome = true ∧ i.capacity_mwh.isSome = true
    ∧ i.static_invest.isSome = true
    ∧ 0 < i.power_mw.getD 0 ∧ 0 < i.capacity_mwh.getD 0
    ∧ 0 < i.static_invest.getD 0
    ∧ 0 < i.efficiency.getD (85/100) ∧ i.efficiency.getD (85/100) ≤ 1
    ∧ 0 < i.capital_ratio.getD (2/10) ∧ i.capital_ratio.getD (2/10) ≤ 1
    ∧ 0 < i.battery_asset_ratio.getD (6/10) ∧ i.battery_asset_ratio.getD (6/10) ≤ 1

instance : DecidablePred CommonInRange := fun i => by
  unfold CommonInRange; infer_instance

/-- The demo scenario of `demo_storage_project` (100 MW / 200 MWh arbitrage
project), as a validated parameter set. -/
def demoParams : Params :=
  { power_mw := 100
    capacity_mwh := 200
    efficiency := 85/100
    static_invest := 30000
    loan_rate := 48/1000
    capital_ratio := 2/10
    battery_asset_ratio := 6/10
    revenue_mode := "arbitrage"
    cycles_per_year := 330
    charge_price := 3/10
    discharge_price := 9/10
    lease_capacity := 0
    lease_price := 0
    ancillary_revenue := 0
    battery_life := 10
    replacement_mode := "expense"
    replacement_cost := 21000
    deductible_tax := 30000 / (1 + 13/100) * (13/100) }

/-- A parameter set that passes every validation check yet has a negative
`deductible_tax` input (the code never range-checks it). -/
def cexPoolNeg : Params := { demoParams with deductible_tax := -1 }

/-- A parameter set that passes every validation check yet has a negative
`discharge_price` (the code never range-checks prices), giving negative
output VAT. -/
def cexPoolGrow : Params :=
  { power_mw := 1
    capacity_mwh := 1
    efficiency := 1
    static_invest := 1
    loan_rate := 0
    capital_ratio := 1
    battery_asset_ratio := 1
    revenue_mode := "arbitrage"
    cycles_per_year := 1
    charge_price := 0
    discharge_price := -1
    lease_capacity := 0
    lease_price := 0
    ancillary_revenue := 0
    battery_life := 1
    replacement_mode := "expense"
    replacement_cost := 0
    deductible_tax := 13 }

/-- Input with two out-of-range numeric fields (power and capacity). -/
def cexTwoBad : Input :=
  { power_mw := some (-1), capacity_mwh := some (-1), static_invest := some 1 }

/-- Input with no keys at all: all three required keys are missing. -/
def emptyInput : Input := {}

/-- Input with required keys present but a non-positive power. -/
def badPowerInput : Input :=
  { power_mw := some 0, capacity_mwh := some 1, static_invest := some 1 }

/-- Input whose battery life is the integer 0 (below the spec's `≥ 1`
invariant) and whose other fields pass every check. -/
def zeroLifeInput : Input :=
  { power_mw := some 1, capacity_mwh := some 1, static_invest := some 1
    battery_life := some 0 }

/-- Input whose revenue-mode string is none of the four recognized modes. -/
def otherModeInput : Input :=
  { power_mw := some 1, capacity_mwh := some 1, static_invest := some 1
    revenue_mode := some "other" }

/-- Input whose first failing numeric check is the capacity check. -/
def badCapacityInput : Input :=
  { power_mw := some 1, capacity_mwh := some 0, static_invest := some 1 }

/-- Input whose first failing numeric check is the efficiency check. -/
def badEfficiencyInput : Input :=
  { power_mw := some 1, capacity_mwh := some 1, static_invest := some 1
    efficiency := some 2 }

/-- Input whose first failing numeric check is the static-investment check. -/
def badInvestInput : Input :=
  { power_mw := some 1, capacity_mwh := some 1, static_invest := some 0 }

/-- Input whose first failing numeric check is the capital-ratio check. -/
def badCapitalInput : Input :=
  { power_mw := some 1, capacity_mwh := some 1, static_invest := some 1
    capital_ratio := some 2 }

/-- Input whose first failing numeric check is the battery-asset-ratio
check. -/
def badBatteryRatioInput : Input :=
  { power_mw := some 1, capacity_mwh := some 1, static_invest := some 1
    battery_asset_ratio := some 0 }

/-! ## Helper lemmas -/

theorem opRecord_snd (p : Params) (pool : ℚ) (y : ℕ) :
    (opRecord p pool y).2 = (vatStep pool (outputVat p)).2 := rfl

theorem opRec_VAT_Payable (p : Params) (n : ℕ) :
    (opRec p n).VAT_Payable = (vatStep (poolBefore p (n - 1)) (outputVat p)).1 := rfl

theorem opRec_Battery_Replacement (p : Params) (n : ℕ) :
    (opRec p n).Battery_Replacement =
      if (n : ℤ) % p.battery_life = 0 ∧ n < 20 then p.replacement_cost else 0 := rfl

theorem opRec_Depreciation (p : Params) (n : ℕ) :
    (opRec p n).Depreciation = batteryDepAt p n + nonBatteryDepAt p n := rfl

theorem opRec_Income_Tax (p : Params) (n : ℕ) :
    (opRec p n).Income_Tax = max 0 ((opRec p n).profit * taxRate n) := rfl

theorem opRec_Revenue_Inc (p : Params) (n : ℕ) :
    (opRec p n).Revenue_Inc = revenueInc p := rfl

theorem opRec_Revenue_Exc (p : Params) (n : ℕ) :
    (opRec p n).Revenue_Exc = revenueExc p := rfl

theorem opRec_Output_VAT (p : Params) (n : ℕ) :
    (opRec p n).Output_VAT = outputVat p := rfl

theorem opRec_Charge_Cost (p : Params) (n : ℕ) :
    (opRec p n).Charge_Cost = chargeCost p := rfl

theorem opRec_Discharge_Revenue (p : Params) (n : ℕ) :
    (opRec p n).Discharge_Revenue = dischargeRevenue p := rfl

theorem opRec_Lease_Revenue (p : Params) (n : ℕ) :
    (opRec p n).Lease_Revenue = leaseRevenue p := rfl

theorem opRec_Ancillary_Revenue (p : Params) (n : ℕ) :
    (opRec p n).Ancillary_Revenue = ancillaryRevenue p := rfl

/-- Under non-negative pool and output VAT, one pool update pays
`max 0 (output_vat - pool)` and removes `min pool output_vat` from the pool. -/
theorem vatStep_eq (pool ov : ℚ) (hp : 0 ≤ pool) (ho : 0 ≤ ov) :
    vatStep pool ov = (max 0 (ov - pool), pool - min pool ov) := by
  unfold vatStep
  rcases lt_or_eq_of_le hp with h | h
  · rw [if_pos h]
    by_cases hle : ov ≤ pool
    · rw [if_pos hle, max_eq_left (by linarith), min_eq_right hle]
    · push_neg at hle
      rw [if_neg (not_le.mpr hle), max_eq_right (by linarith),
        min_eq_left (le_of_lt hle), sub_self]
  · rw [← h, if_neg (lt_irrefl 0), max_eq_right (by linarith),
      min_eq_left ho, sub_zero, sub_self]

theorem poolBefore_succ (p : Params) (n : ℕ) :
    poolBefore p (n + 1) = (vatStep (poolBefore p n) (outputVat p)).2 := rfl

theorem poolBefore_nonneg (p : Params) (hd : 0 ≤ p.deductible_tax)
    (ho : 0 ≤ outputVat p) : ∀ n, 0 ≤ poolBefore p n := by
  intro n
  induction n with
  | zero => exact hd
  | succ n ih =>
      rw [poolBefore_succ, vatStep_eq _ _ ih ho]
      exact sub_nonneg.mpr (min_le_left _ _)

theorem cumsum_length (l : List ℚ) : (cumsum l).length = l.length := by
  induction l with
  | nil => rfl
  | cons x xs ih => simp [cumsum, ih]

theorem firstNonneg_eq_some (l : List ℚ) (p : ℕ) (hp : p < l.length)
    (h0 : 0 ≤ l.getD p 0) (hneg : ∀ q, q < p → l.getD q 0 < 0) :
    firstNonneg l = some p := by
  induction l generalizing p with
  | nil => simp at hp
  | cons c cs ih =>
      cases p with
      | zero =>
          simp only [List.getD_cons_zero] at h0
          unfold firstNonneg
          rw [if_pos h0]
      | succ p' =>
          have hc : c < 0 := by
            have := hneg 0 (Nat.succ_pos _)
            simpa using this
          unfold firstNonneg
          rw [if_neg (not_le.mpr hc),
            ih p' (by simpa using hp) (by simpa using h0)
              (fun q hq => by simpa using hneg (q + 1) (by omega))]
          rfl

theorem firstNonneg_eq_none (l : List ℚ) (h : ∀ q, q < l.length → l.getD q 0 < 0) :
    firstNonneg l = none := by
  induction l with
  | nil => rfl
  | cons c cs ih =>
      have hc : c < 0 := by
        have := h 0 (by simp)
        simpa using this
      unfold firstNonneg
      rw [if_neg (not_le.mpr hc),
        ih (fun q hq => by simpa using h (q + 1) (by simpa using hq))]
      rfl

theorem demo_valid : ValidParams demoParams := by
  unfold ValidParams demoParams
  norm_num

theorem demo_deductible_nonneg : 0 ≤ demoParams.deductible_tax := by
  simp only [demoParams]
  norm_num

theorem demo_outputVat_nonneg : 0 ≤ outputVat demoParams := by
  simp only [outputVat, revenueInc, revenueExc, dischargeRevenue, ancillaryRevenue,
    leaseRevenue, demoParams]
  simp
  norm_num

theorem cexPoolNeg_valid : ValidParams cexPoolNeg := by
  unfold ValidParams cexPoolNeg demoParams
  norm_num

theorem cexPoolGrow_valid : ValidParams cexPoolGrow := by
  unfold ValidParams cexPoolGrow
  norm_num

/-! ## Claims -/

/-- C1 (amended): for every valid parameter set whose initial deductible
input-VAT amount is non-negative and whose (year-constant) output VAT is
non-negative, the tax-credit pool starts at the initial deductible amount,
is reduced by `min(pool, output_vat)` each operating year, is monotonically
non-increasing, never becomes negative, once zero never replenishes, and
each operating year's VAT payable equals
`max(0, output_vat − pool-before-that-year)`. -/
theorem C1_pool_invariants (p : Params) (hv : ValidParams p)
    (hd : 0 ≤ p.deductible_tax) (ho : 0 ≤ outputVat p) :
    poolBefore p 0 = p.deductible_tax
    ∧ (∀ n, poolBefore p (n + 1) = poolBefore p n - min (poolBefore p n) (outputVat p))
    ∧ (∀ n, poolBefore p (n + 1) ≤ poolBefore p n)
    ∧ (∀ n, 0 ≤ poolBefore p n)
    ∧ (∀ n, poolBefore p n = 0 → poolBefore p (n + 1) = 0)
    ∧ (∀ n, (opRec p (n + 1)).VAT_Payable = max 0 (outputVat p - poolBefore p n)) := by
  have hnn := poolBefore_nonneg p hd ho
  have hstep : ∀ n, poolBefore p (n + 1)
      = poolBefore p n - min (poolBefore p n) (outputVat p) := by
    intro n
    rw [poolBefore_succ, vatStep_eq _ _ (hnn n) ho]
  refine ⟨rfl, hstep, ?_, hnn, ?_, ?_⟩
  · intro n
    have hmin : 0 ≤ min (poolBefore p n) (outputVat p) := le_min (hnn n) ho
    rw [hstep n]
    linarith
  · intro n hz
    rw [hstep n, hz, min_eq_left ho, sub_zero]
  · intro n
    rw [opRec_VAT_Payable, Nat.add_sub_cancel, vatStep_eq _ _ (hnn n) ho]

/-- C1 witness: the demo arbitrage project satisfies the hypotheses and hence
all the pool invariants. -/
theorem C1_pool_invariants_witness :
    ValidParams demoParams ∧ 0 ≤ demoParams.deductible_tax ∧ 0 ≤ outputVat demoParams
    ∧ (poolBefore demoParams 0 = demoParams.deductible_tax
      ∧ (∀ n, poolBefore demoParams (n + 1)
          = poolBefore demoParams n - min (poolBefore demoParams n) (outputVat demoParams))
      ∧ (∀ n, poolBefore demoParams (n + 1) ≤ poolBefore demoParams n)
      ∧ (∀ n, 0 ≤ poolBefore demoParams n)
      ∧ (∀ n, poolBefore demoParams n = 0 → poolBefore demoParams (n + 1) = 0)
      ∧ (∀ n, (opRec demoParams (n + 1)).VAT_Payable
          = max 0 (outputVat demoParams - poolBefore demoParams n))) :=
  ⟨demo_valid, demo_deductible_nonneg, demo_outputVat_nonneg,
    C1_pool_invariants demoParams demo_valid demo_deductible_nonneg demo_outputVat_nonneg⟩

/-- C1 counterexample: claim C1 as stated is false for "every valid parameter
set".  `cexPoolNeg` passes every validation check yet its pool starts
negative; `cexPoolGrow` passes every validation check yet its pool strictly
increases from operating year 1 to operating year 2 (negative output VAT from
a negative, unvalidated discharge price replenishes the pool). -/
theorem C1_counterexample :
    (ValidParams cexPoolNeg ∧ poolBefore cexPoolNeg 0 < 0)
    ∧ (ValidParams cexPoolGrow ∧ poolBefore cexPoolGrow 0 < poolBefore cexPoolGrow 1) := by
  refine ⟨⟨cexPoolNeg_valid, ?_⟩, cexPoolGrow_valid, ?_⟩
  · simp only [poolBefore, cexPoolNeg, demoParams]
    norm_num
  · rw [poolBefore_succ]
    simp only [poolBefore, vatStep, outputVat, revenueInc, revenueExc, dischargeRevenue,
      ancillaryRevenue, leaseRevenue, cexPoolGrow]
    simp
    norm_num

/-- C2: in every operating year `y` of every valid parameter set, the
battery-replacement charge equals the configured replacement cost exactly
when `y mod battery_life = 0` and `y < 20`; it is zero whenever
`y mod battery_life ≠ 0` and in the final operating year 20. -/
theorem C2_battery_replacement (p : Params) (hv : ValidParams p) (y : ℕ)
    (h1 : 1 ≤ y) (h2 : y ≤ 20) :
    ((opRec p y).Battery_Replacement =
      if (y : ℤ) % p.battery_life = 0 ∧ y < 20 then p.replacement_cost else 0)
    ∧ ((y : ℤ) % p.battery_life ≠ 0 → (opRec p y).Battery_Replacement = 0)
    ∧ (y = 20 → (opRec p y).Battery_Replacement = 0) := by
  refine ⟨opRec_Battery_Replacement p y, ?_, ?_⟩
  · intro hmod
    rw [opRec_Battery_Replacement, if_neg (by tauto)]
  · intro h20
    subst h20
    rw [opRec_Battery_Replacement, if_neg (by simp)]

/-- C2 witness: demo project, operating year 10. -/
theorem C2_battery_replacement_witness :
    ValidParams demoParams ∧ (1 : ℕ) ≤ 10 ∧ (10 : ℕ) ≤ 20
    ∧ (((opRec demoParams 10).Battery_Replacement =
        if (10 : ℤ) % demoParams.battery_life = 0 ∧ 10 < 20
        then demoParams.replacement_cost else 0)
      ∧ ((10 : ℤ) % demoParams.battery_life ≠ 0 →
          (opRec demoParams 10).Battery_Replacement = 0)
      ∧ ((10 : ℕ) = 20 → (opRec demoParams 10).Battery_Replacement = 0)) :=
  ⟨demo_valid, by decide, by decide,
    C2_battery_replacement demoParams demo_valid 10 (by decide) (by decide)⟩

/-- C3: in every operating year, under capacity-lease mode the
revenue-including-tax base is the lease revenue alone and the VAT rate is 6%;
in every other mode the base is discharge + ancillary revenue and the rate is
13%; in both cases `revenue_excluding_tax = revenue_including_tax / (1+rate)`
and `output_vat = revenue_including_tax − revenue_excluding_tax`; the two
rates are never applied in the same year (the branches are exclusive). -/
theorem C3_vat_relation (p : Params) (hv : ValidParams p) (y : ℕ)
    (h1 : 1 ≤ y) (h2 : y ≤ 20) :
    (p.revenue_mode = "capacity" →
      (opRec p y).Revenue_Inc = (opRec p y).Lease_Revenue
      ∧ (opRec p y).Revenue_Exc = (opRec p y).Revenue_Inc / (1 + 6/100))
    ∧ (p.revenue_mode ≠ "capacity" →
      (opRec p y).Revenue_Inc = (opRec p y).Discharge_Revenue + (opRec p y).Ancillary_Revenue
      ∧ (opRec p y).Revenue_Exc = (opRec p y).Revenue_Inc / (1 + 13/100))
    ∧ (opRec p y).Output_VAT = (opRec p y).Revenue_Inc - (opRec p y).Revenue_Exc := by
  refine ⟨?_, ?_, rfl⟩
  · intro hm
    constructor
    · rw [opRec_Revenue_Inc, opRec_Lease_Revenue, revenueInc, if_pos hm]
    · rw [opRec_Revenue_Exc, opRec_Revenue_Inc, revenueExc, if_pos hm]
  · intro hm
    constructor
    · rw [opRec_Revenue_Inc, opRec_Discharge_Revenue, opRec_Ancillary_Revenue,
        revenueInc, if_neg hm]
    · rw [opRec_Revenue_Exc, opRec_Revenue_Inc, revenueExc, if_neg hm]

/-- C3 witness: demo project (arbitrage mode), operating year 1. -/
theorem C3_vat_relation_witness :
    ValidParams demoParams ∧ (1 : ℕ) ≤ 1 ∧ (1 : ℕ) ≤ 20
    ∧ ((demoParams.revenue_mode = "capacity" →
        (opRec demoParams 1).Revenue_Inc = (opRec demoParams 1).Lease_Revenue
        ∧ (opRec demoParams 1).Revenue_Exc = (opRec demoParams 1).Revenue_Inc / (1 + 6/100))
      ∧ (demoParams.revenue_mode ≠ "capacity" →
        (opRec demoParams 1).Revenue_Inc
          = (opRec demoParams 1).Discharge_Revenue + (opRec demoParams 1).Ancillary_Revenue
        ∧ (opRec demoParams 1).Revenue_Exc = (opRec demoParams 1).Revenue_Inc / (1 + 13/100))
      ∧ (opRec demoParams 1).Output_VAT
          = (opRec demoParams 1).Revenue_Inc - (opRec demoParams 1).Revenue_Exc) :=
  ⟨demo_valid, by decide, by decide,
    C3_vat_relation demoParams demo_valid 1 (by decide) (by decide)⟩

/-- C4: the income-tax rate is 0% in operating years 1–3, half of 25% in
years 4–6 and 25% from year 7 on, and the recorded income tax equals
`max(0, profit × rate)`, hence is never negative. -/
theorem C4_income_tax (p : Params) (hv : ValidParams p) (y : ℕ)
    (h1 : 1 ≤ y) (h2 : y ≤ 20) :
    (opRec p y).Income_Tax = max 0 ((opRec p y).profit * taxRate y)
    ∧ (y ≤ 3 → taxRate y = 0)
    ∧ (4 ≤ y → y ≤ 6 → taxRate y = (25/100) * (1/2))
    ∧ (7 ≤ y → taxRate y = 25/100)
    ∧ 0 ≤ (opRec p y).Income_Tax := by
  refine ⟨rfl, ?_, ?_, ?_, ?_⟩
  · intro h
    rw [taxRate, if_pos h]
  · intro h4 h6
    rw [taxRate, if_neg (by omega), if_pos h6]
  · intro h7
    rw [taxRate, if_neg (by omega), if_neg (by omega)]
  · rw [opRec_Income_Tax]
    exact le_max_left _ _

/-- C4 witness: demo project, operating year 5. -/
theorem C4_income_tax_witness :
    ValidParams demoParams ∧ (1 : ℕ) ≤ 5 ∧ (5 : ℕ) ≤ 20
    ∧ ((opRec demoParams 5).Income_Tax
        = max 0 ((opRec demoParams 5).profit * taxRate 5)
      ∧ ((5 : ℕ) ≤ 3 → taxRate 5 = 0)
      ∧ ((4 : ℕ) ≤ 5 → (5 : ℕ) ≤ 6 → taxRate 5 = (25/100) * (1/2))
      ∧ ((7 : ℕ) ≤ 5 → taxRate 5 = 25/100)
      ∧ 0 ≤ (opRec demoParams 5).Income_Tax) :=
  ⟨demo_valid, by decide, by decide,
    C4_income_tax demoParams demo_valid 5 (by decide) (by decide)⟩

/-- C5: the finished table has exactly 21 year-records; in year 1
(construction) every revenue and cost field is zero and both net cash flows
equal `−(static investment + 1% working capital)`, a strictly negative
value. -/
theorem C5_table_shape (p : Params) (hv : ValidParams p) :
    (cashFlowTable p).length = 21
    ∧ (yearRecord p 1).Charge_Cost = 0
    ∧ (yearRecord p 1).Discharge_Revenue = 0
    ∧ (yearRecord p 1).Lease_Revenue = 0
    ∧ (yearRecord p 1).Ancillary_Revenue = 0
    ∧ (yearRecord p 1).Revenue_Inc = 0
    ∧ (yearRecord p 1).Revenue_Exc = 0
    ∧ (yearRecord p 1).Output_VAT = 0
    ∧ (yearRecord p 1).OM_Cost = 0
    ∧ (yearRecord p 1).VAT_Payable = 0
    ∧ (yearRecord p 1).Surtax = 0
    ∧ (yearRecord p 1).Battery_Replacement = 0
    ∧ (yearRecord p 1).Depreciation = 0
    ∧ (yearRecord p 1).Income_Tax = 0
    ∧ (yearRecord p 1).Net_CF_Pre = -(p.static_invest + p.static_invest * (1/100))
    ∧ (yearRecord p 1).Net_CF_After = -(p.static_invest + p.static_invest * (1/100))
    ∧ (yearRecord p 1).Net_CF_Pre < 0 := by
  have hs : 0 < p.static_invest := hv.2.2.2.2.1
  have hneg : (yearRecord p 1).Net_CF_Pre < 0 := by
    show -(p.static_invest + workingCapital p) < 0
    rw [workingCapital]
    nlinarith
  exact ⟨by simp [cashFlowTable], rfl, rfl, rfl, rfl, rfl, rfl, rfl, rfl, rfl,
    rfl, rfl, rfl, rfl, rfl, rfl, hneg⟩

/-- C5 witness: the demo project has a 21-row table with strictly negative
construction-year cash flow `−30300 = −(30000 + 300)`. -/
theorem C5_table_shape_witness :
    ValidParams demoParams
    ∧ (cashFlowTable demoParams).length = 21
    ∧ (yearRecord demoParams 1).Net_CF_Pre
        = -(demoParams.static_invest + demoParams.static_invest * (1/100))
    ∧ (yearRecord demoParams 1).Net_CF_Pre < 0 := by
  obtain ⟨hlen, -, -, -, -, -, -, -, -, -, -, -, -, -, hpre, -, hneg⟩ :=
    C5_table_shape demoParams demo_valid
  exact ⟨demo_valid, hlen, hpre, hneg⟩

/-- C6: per-year depreciation is the battery-schedule amount
(`battery asset value × 0.95 / battery_life`) while `y ≤ battery_life` plus
the non-battery amount (`non-battery asset value × 0.95 / 15`) while
`y ≤ 15`, zero beyond both windows, and the battery schedule sums to
battery asset value × 95% over its active window. -/
theorem C6_depreciation (p : Params) (hv : ValidParams p) (y : ℕ)
    (h1 : 1 ≤ y) (h2 : y ≤ 20) :
    (opRec p y).Depreciation = batteryDepAt p y + nonBatteryDepAt p y
    ∧ batteryDepAt p y
        = (if (y : ℤ) ≤ p.battery_life
           then batteryAssetValue p * (95/100) / (p.battery_life : ℚ) else 0)
    ∧ nonBatteryDepAt p y
        = (if y ≤ 15 then nonBatteryAssetValue p * (95/100) / 15 else 0)
    ∧ (p.battery_life < (y : ℤ) → 15 < y → (opRec p y).Depreciation = 0)
    ∧ (∑ z in Finset.Icc 1 p.battery_life.toNat, batteryDepAt p z)
        = batteryAssetValue p * (95/100) := by
  have hbl : 1 ≤ p.battery_life := hv.2.2.2.2.2.2.2.2.2
  refine ⟨rfl, rfl, rfl, ?_, ?_⟩
  · intro hb hy15
    rw [opRec_Depreciation, batteryDepAt, if_neg (by omega), nonBatteryDepAt,
      if_neg (by omega), add_zero]
  · have hconst : ∀ z ∈ Finset.Icc 1 p.battery_life.toNat,
        batteryDepAt p z = batteryDepPerYear p := by
      intro z hz
      rw [Finset.mem_Icc] at hz
      rw [batteryDepAt, if_pos (by omega)]
    rw [Finset.sum_congr rfl hconst, Finset.sum_const, Nat.card_Icc, nsmul_eq_mul]
    have hne : ((p.battery_life : ℤ) : ℚ) ≠ 0 :=
      Int.cast_ne_zero.mpr (by omega)
    have hcast : ((p.battery_life.toNat + 1 - 1 : ℕ) : ℚ) = ((p.battery_life : ℤ) : ℚ) := by
      have h' : ((p.battery_life.toNat + 1 - 1 : ℕ) : ℤ) = p.battery_life := by omega
      exact_mod_cast h'
    rw [hcast, batteryDepPerYear, mul_comm, div_mul_cancel₀ _ hne]

/-- C6 witness: demo project — the battery schedule (10 years) sums to 95% of
the battery asset value, and operating year 16 (beyond both schedules,
battery life 10 and non-battery horizon 15) has zero depreciation. -/
theorem C6_depreciation_witness :
    ValidParams demoParams
    ∧ (∑ z in Finset.Icc 1 demoParams.battery_life.toNat, batteryDepAt demoParams z)
        = batteryAssetValue demoParams * (95/100)
    ∧ (opRec demoParams 16).Depreciation = 0 := by
  have h := C6_depreciation demoParams demo_valid 16 (by decide) (by decide)
  exact ⟨demo_valid, h.2.2.2.2, h.2.2.2.1 (by decide) (by decide)⟩

/-- C7: for a completed 21-entry after-tax series, the reported payback
period is 1 when the cumulative sum is non-negative already at index 0,
otherwise `(p−1) + |cumulative[p−1]| / cashflow[p]` at the smallest index `p`
with non-negative cumulative sum, and the sentinel 99.9 when the cumulative
sum never becomes non-negative within the series. -/
theorem C7_payback (cf : List ℚ) (hlen : cf.length = 21) :
    (∀ p, p < cf.length → 0 ≤ (cumsum cf).getD p 0 →
      (∀ q, q < p → (cumsum cf).getD q 0 < 0) →
      payback cf =
        if p = 0 then 1
        else (p : ℚ) - 1 + |(cumsum cf).getD (p - 1) 0| / cf.getD p 0)
    ∧ ((∀ q, q < cf.length → (cumsum cf).getD q 0 < 0) → payback cf = 999/10) := by
  constructor
  · intro p hp h0 hneg
    have hfi : firstNonneg (cumsum cf) = some p :=
      firstNonneg_eq_some _ p (by rw [cumsum_length]; exact hp) h0 hneg
    unfold payback
    rw [hfi]
    by_cases hp0 : p = 0
    · subst hp0
      simp
    · show (if 0 < p then (p : ℚ) - 1 + |(cumsum cf).getD (p - 1) 0| / cf.getD p 0 else 1) = _
      rw [if_pos (Nat.pos_of_ne_zero hp0), if_neg hp0]
  · intro hneg
    have hfi : firstNonneg (cumsum cf) = none :=
      firstNonneg_eq_none _ (fun q hq => hneg q (by rwa [cumsum_length] at hq))
    unfold payback
    rw [hfi]

/-- C7 witness: a 21-entry series recovering in year 10 (interpolated value
10), and a 21-entry series that never recovers, yielding the 99.9 sentinel. -/
theorem C7_payback_witness :
    ((-10 : ℚ) :: List.replicate 20 1).length = 21
    ∧ payback ((-10 : ℚ) :: List.replicate 20 1) = 10
    ∧ (List.replicate 21 (-1 : ℚ)).length = 21
    ∧ payback (List.replicate 21 (-1 : ℚ)) = 999/10 := by
  refine ⟨by decide, ?_, by decide, ?_⟩
  · have h := (C7_payback ((-10 : ℚ) :: List.replicate 20 1) (by decide)).1 10
      (by decide) (by norm_num [cumsum])
      (by intro q hq; interval_cases q <;> norm_num [cumsum])
    rw [h]
    norm_num [cumsum]
  · refine (C7_payback (List.replicate 21 (-1 : ℚ)) (by decide)).2 ?_
    intro q hq
    have hq21 : q < 21 := by simpa using hq
    interval_cases q <;> norm_num [cumsum]

/-- C8 (amended): all missing required keys are reported together in one
validation error, raised before any numeric check and any cash-flow
computation; out-of-range numeric fields are instead reported one at a time —
the first failing check in the fixed source order raises alone (shown here
for the first check, power), so a failure does not list every offending
field. -/
theorem C8_validation_errors (inp : Input) :
    (requiredMissing inp ≠ [] →
      validate inp = .error (.missingKeys (requiredMissing inp))
      ∧ (VError.missingKeys (requiredMissing inp)).fields = requiredMissing inp)
    ∧ (requiredMissing inp = [] →
      (inp.power_mw.getD 0 ≤ 0 →
        validate inp = .error .powerNonpositive
        ∧ VError.fields .powerNonpositive = ["power_mw"])
      ∧ (0 < inp.power_mw.getD 0 → inp.capacity_mwh.getD 0 ≤ 0 →
        validate inp = .error .capacityNonpositive
        ∧ VError.fields .capacityNonpositive = ["capacity_mwh"])
      ∧ (0 < inp.power_mw.getD 0 → 0 < inp.capacity_mwh.getD 0 →
         ¬(0 < inp.efficiency.getD (85/100) ∧ inp.efficiency.getD (85/100) ≤ 1) →
        validate inp = .error .efficiencyOutOfRange
        ∧ VError.fields .efficiencyOutOfRange = ["efficiency"])
      ∧ (0 < inp.power_mw.getD 0 → 0 < inp.capacity_mwh.getD 0 →
         (0 < inp.efficiency.getD (85/100) ∧ inp.efficiency.getD (85/100) ≤ 1) →
         inp.static_invest.getD 0 ≤ 0 →
        validate inp = .error .investNonpositive
        ∧ VError.fields .investNonpositive = ["static_invest"])
      ∧ (0 < inp.power_mw.getD 0 → 0 < inp.capacity_mwh.getD 0 →
         (0 < inp.efficiency.getD (85/100) ∧ inp.efficiency.getD (85/100) ≤ 1) →
         0 < inp.static_invest.getD 0 →
         ¬(0 < inp.capital_ratio.getD (2/10) ∧ inp.capital_ratio.getD (2/10) ≤ 1) →
        validate inp = .error .capitalRatioOutOfRange
        ∧ VError.fields .capitalRatioOutOfRange = ["capital_ratio"])
      ∧ (0 < inp.power_mw.getD 0 → 0 < inp.capacity_mwh.getD 0 →
         (0 < inp.efficiency.getD (85/100) ∧ inp.efficiency.getD (85/100) ≤ 1) →
         0 < inp.static_invest.getD 0 →
         (0 < inp.capital_ratio.getD (2/10) ∧ inp.capital_ratio.getD (2/10) ≤ 1) →
         ¬(0 < inp.battery_asset_ratio.getD (6/10)
            ∧ inp.battery_asset_ratio.getD (6/10) ≤ 1) →
        validate inp = .error .batteryAssetRatioOutOfRange
        ∧ VError.fields .batteryAssetRatioOutOfRange = ["battery_asset_ratio"])) := by
  constructor
  · intro h
    exact ⟨by rw [validate, if_pos h], rfl⟩
  · intro hmiss
    refine ⟨?_, ?_, ?_, ?_, ?_, ?_⟩
    · intro h1
      exact ⟨by rw [validate, if_neg (not_ne_iff.mpr hmiss), if_pos h1], rfl⟩
    · intro h1 h2
      exact ⟨by rw [validate, if_neg (not_ne_iff.mpr hmiss), if_neg (not_le.mpr h1),
        if_pos h2], rfl⟩
    · intro h1 h2 h3
      exact ⟨by rw [validate, if_neg (not_ne_iff.mpr hmiss), if_neg (not_le.mpr h1),
        if_neg (not_le.mpr h2), if_pos h3], rfl⟩
    · intro h1 h2 h3 h4
      exact ⟨by rw [validate, if_neg (not_ne_iff.mpr hmiss), if_neg (not_le.mpr h1),
        if_neg (not_le.mpr h2), if_neg (not_not_intro h3), if_pos h4], rfl⟩
    · intro h1 h2 h3 h4 h5
      exact ⟨by rw [validate, if_neg (not_ne_iff.mpr hmiss), if_neg (not_le.mpr h1),
        if_neg (not_le.mpr h2), if_neg (not_not_intro h3), if_neg (not_le.mpr h4),
        if_pos h5], rfl⟩
    · intro h1 h2 h3 h4 h5 h6
      exact ⟨by rw [validate, if_neg (not_ne_iff.mpr hmiss), if_neg (not_le.mpr h1),
        if_neg (not_le.mpr h2), if_neg (not_not_intro h3), if_neg (not_le.mpr h4),
        if_neg (not_not_intro h5), if_pos h6], rfl⟩

/-- C8 witness: the empty input fails with the aggregated missing-key error
naming all three required keys; six inputs, one per numeric range check,
each making that check the first to fail in source order, each fail with
that check's own single-field error. -/
theorem C8_validation_errors_witness :
    (requiredMissing emptyInput = ["power_mw", "capacity_mwh", "static_invest"]
      ∧ validate emptyInput = .error (.missingKeys (requiredMissing emptyInput)))
    ∧ validate badPowerInput = .error .powerNonpositive
    ∧ validate badCapacityInput = .error .capacityNonpositive
    ∧ validate badEfficiencyInput = .error .efficiencyOutOfRange
    ∧ validate badInvestInput = .error .investNonpositive
    ∧ validate badCapitalInput = .error .capitalRatioOutOfRange
    ∧ validate badBatteryRatioInput = .error .batteryAssetRatioOutOfRange := by
  refine ⟨⟨by decide, ((C8_validation_errors emptyInput).1 (by decide)).1⟩,
    ?_, ?_, ?_, ?_, ?_, ?_⟩
  · exact (((C8_validation_errors badPowerInput).2 (by decide)).1
      (by norm_num [badPowerInput])).1
  · exact (((C8_validation_errors badCapacityInput).2 (by decide)).2.1
      (by norm_num [badCapacityInput]) (by norm_num [badCapacityInput])).1
  · exact (((C8_validation_errors badEfficiencyInput).2 (by decide)).2.2.1
      (by norm_num [badEfficiencyInput]) (by norm_num [badEfficiencyInput])
      (by norm_num [badEfficiencyInput])).1
  · exact (((C8_validation_errors badInvestInput).2 (by decide)).2.2.2.1
      (by norm_num [badInvestInput]) (by norm_num [badInvestInput])
      (by norm_num [badInvestInput]) (by norm_num [badInvestInput])).1
  · exact (((C8_validation_errors badCapitalInput).2 (by decide)).2.2.2.2.1
      (by norm_num [badCapitalInput]) (by norm_num [badCapitalInput])
      (by norm_num [badCapitalInput]) (by norm_num [badCapitalInput])
      (by norm_num [badCapitalInput])).1
  · exact (((C8_validation_errors badBatteryRatioInput).2 (by decide)).2.2.2.2.2
      (by norm_num [badBatteryRatioInput]) (by norm_num [badBatteryRatioInput])
      (by norm_num [badBatteryRatioInput]) (by norm_num [badBatteryRatioInput])
      (by norm_num [badBatteryRatioInput]) (by norm_num [badBatteryRatioInput])).1

/-- C8 counterexample: `cexTwoBad` has two out-of-range numeric fields
(power and capacity), yet construction fails with the error naming only
`power_mw` — not the full list of offending fields the claim requires. -/
theorem C8_counterexample :
    validate cexTwoBad = Except.error VError.powerNonpositive
    ∧ cexTwoBad.power_mw.getD 0 ≤ 0
    ∧ cexTwoBad.capacity_mwh.getD 0 ≤ 0
    ∧ VError.fields VError.powerNonpositive ≠ offendingFieldsSpec cexTwoBad
    ∧ offendingFieldsSpec cexTwoBad = ["power_mw", "capacity_mwh"] := by
  have h1 : validate cexTwoBad = Except.error VError.powerNonpositive := by
    rw [validate, if_neg (not_ne_iff.mpr (by decide)),
      if_pos (by norm_num [cexTwoBad])]
  have h2 : offendingFieldsSpec cexTwoBad = ["power_mw", "capacity_mwh"] := by
    rw [offendingFieldsSpec]
    norm_num [cexTwoBad, requiredMissing]
  exact ⟨h1, by norm_num [cexTwoBad], by norm_num [cexTwoBad],
    by rw [h2]; decide, h2⟩

/-- C9: the code does not enforce `battery_life ≥ 1`: an input whose battery
life is the integer 0 passes construction without any validation error (the
spec's invariant is the intent — the unvalidated 0 later crashes
`calculate_cash_flow` with a division by zero at `op_year % battery_life`). -/
theorem C9_battery_life_unvalidated :
    constructedBatteryLife zeroLifeInput = some 0 := by
  have h : validate zeroLifeInput = .ok (mkParams zeroLifeInput) := by
    rw [validate, if_neg (not_ne_iff.mpr (by decide)),
      if_neg (by norm_num [zeroLifeInput]), if_neg (by norm_num [zeroLifeInput]),
      if_neg (by norm_num [zeroLifeInput]), if_neg (by norm_num [zeroLifeInput]),
      if_neg (by norm_num [zeroLifeInput]), if_neg (by norm_num [zeroLifeInput]),
      if_neg (by decide), if_neg (by decide)]
  rw [constructedBatteryLife, h]
  rfl

/-- C10: an input whose revenue-mode string is none of the four recognized
modes but whose common numeric fields are in range passes validation, and
every operating year of the resulting table has zero charge cost, discharge
revenue, lease revenue, ancillary revenue and revenue-including-tax (the
unrecognized mode falls through to the 13% branch with a zero base). -/
theorem C10_unknown_mode (inp : Input) (m : String)
    (hm : inp.revenue_mode = some m)
    (ha : m ≠ "arbitrage") (hc : m ≠ "capacity") (han : m ≠ "ancillary")
    (hh : m ≠ "hybrid") (hr : CommonInRange inp) :
    validate inp = .ok (mkParams inp)
    ∧ (mkParams inp).revenue_mode = m
    ∧ ∀ y, 1 ≤ y → y ≤ 20 →
        (opRec (mkParams inp) y).Charge_Cost = 0
        ∧ (opRec (mkParams inp) y).Discharge_Revenue = 0
        ∧ (opRec (mkParams inp) y).Lease_Revenue = 0
        ∧ (opRec (mkParams inp) y).Ancillary_Revenue = 0
        ∧ (opRec (mkParams inp) y).Revenue_Inc = 0 := by
  obtain ⟨hps, hcs, hss, hp0, hc0, hs0, he0, he1, hr0, hr1, hb0, hb1⟩ := hr
  have hmode : inp.revenue_mode.getD "arbitrage" = m := by rw [hm]; rfl
  have hmiss : requiredMissing inp = [] := by
    unfold requiredMissing
    rw [if_pos hps, if_pos hcs, if_pos hss]
    rfl
  have hmp : (mkParams inp).revenue_mode = m := hmode
  have hnotarb : ¬((mkParams inp).revenue_mode = "arbitrage"
      ∨ (mkParams inp).revenue_mode = "hybrid") := by
    rw [hmp]
    rintro (h | h)
    · exact ha h
    · exact hh h
  refine ⟨?_, hmp, ?_⟩
  · rw [validate, if_neg (not_ne_iff.mpr hmiss), if_neg (not_le.mpr hp0),
      if_neg (not_le.mpr hc0), if_neg (not_not_intro ⟨he0, he1⟩),
      if_neg (not_le.mpr hs0), if_neg (not_not_intro ⟨hr0, hr1⟩),
      if_neg (not_not_intro ⟨hb0, hb1⟩),
      if_neg (fun h => hc (hmode.symm.trans h.1)),
      if_neg (fun h => han (hmode.symm.trans h.1))]
  · intro y hy1 hy2
    refine ⟨?_, ?_, ?_, ?_, ?_⟩
    · rw [opRec_Charge_Cost, chargeCost, if_neg hnotarb]
    · rw [opRec_Discharge_Revenue, dischargeRevenue, if_neg hnotarb]
    · rw [opRec_Lease_Revenue, leaseRevenue, if_neg (fun h => hc (hmp.symm.trans h))]
    · rw [opRec_Ancillary_Revenue, ancillaryRevenue, if_neg ?_]
      rintro (h | h)
      · exact hh (hmp.symm.trans h)
      · exact han (hmp.symm.trans h)
    · rw [opRec_Revenue_Inc, revenueInc, if_neg (fun h => hc (hmp.symm.trans h)),
        dischargeRevenue, if_neg hnotarb, ancillaryRevenue, if_neg ?_, add_zero]
      rintro (h | h)
      · exact hh (hmp.symm.trans h)
      · exact han (hmp.symm.trans h)

/-- C10 witness: the concrete input with mode `"other"` and in-range common
numerics validates successfully with all operating-year revenue fields
zero. -/
theorem C10_unknown_mode_witness :
    validate otherModeInput = .ok (mkParams otherModeInput)
    ∧ (mkParams otherModeInput).revenue_mode = "other"
    ∧ ∀ y, 1 ≤ y → y ≤ 20 →
        (opRec (mkParams otherModeInput) y).Charge_Cost = 0
        ∧ (opRec (mkParams otherModeInput) y).Discharge_Revenue = 0
        ∧ (opRec (mkParams otherModeInput) y).Lease_Revenue = 0
        ∧ (opRec (mkParams otherModeInput) y).Ancillary_Revenue = 0
        ∧ (opRec (mkParams otherModeInput) y).Revenue_Inc = 0 :=
  C10_unknown_mode otherModeInput "other" rfl (by decide) (by decide) (by decide)
    (by decide) (by norm_num [CommonInRange, otherModeInput])

end PyStorage
